import Mathlib

/-!
Verification development for the podcast_rss plugin
(src/v7/podcast_rss/podcast_rss.py).

The Python module is shallowly embedded below.  Fallible Python code is
modelled with `Except PyExc`; Python dict lookups that can raise KeyError
and attribute accesses that can fail are explicit.  Name resolution
matters for this module: several expressions reference names that are
bound neither locally nor at module level (`slug`, `name` in
get_enclosure_size, `mimetypes` in _enclosure, `site` in
render_podcast_rss), so the embedding carries the set of module-level
names and the local names in scope at each such use, and resolves names
against them exactly as Python would (none of the four names above is a
Python builtin either).
-/

namespace PodcastRSS

/-- Python exceptions that the embedded code can raise. -/
inductive PyExc where
  | nameError (nm : String)
  | keyError (key : String)
  | typeError (msg : String)
  | attributeError (nm : String)
deriving Repr, DecidableEq

/-- Names bound in the module global namespace of podcast_rss.py: the
three future-statement bindings, the imports (lines 7-25), the
module-level assignment `providers` (line 28), and the top-level defs
and class.  Note that `slug`, `name`, `mimetypes` and `site` are NOT in
this list, and none of them is a Python builtin. -/
def moduleGlobals : List String :=
  ["absolute_import", "print_function", "unicode_literals",
   "os", "urljoin", "urlparse", "requests", "FeedGenerator",
   "utils", "_nikola_enclosure", "Task", "TranslatableSetting",
   "micawber", "register", "providers",
   "get_enclosure_metadata", "get_enclosure_size",
   "get_enclosure_duration", "_enclosure", "GeneratePodcastRSS", "main"]

/-- Python name resolution at a use site: local scope first, then the
module globals (builtins are irrelevant for the names this file
resolves, see `moduleGlobals`). -/
def resolveName (localNames : List String) (nm : String) : Bool :=
  localNames.contains nm || moduleGlobals.contains nm

/-- Python dict lookup cfg[key]: a key that is absent raises KeyError. -/
def getKey {A : Type} (v : Option A) (key : String) : Except PyExc A :=
  match v with
  | some a => Except.ok a
  | none => Except.error (PyExc.keyError key)

/-- Access to a required datum of a post record: a malformed post (datum
absent) raises on access; the rendering loop has no exception handler,
so such an error propagates. -/
def getAttr {A : Type} (v : Option A) (nm : String) : Except PyExc A :=
  match v with
  | some a => Except.ok a
  | none => Except.error (PyExc.attributeError nm)

/-- Local names in scope inside get_enclosure_size when its body
evaluates the call arguments (the two parameters and the assignment on
line 38). -/
def getEnclosureSizeLocals : List String := ["url", "default", "base_url"]

/-- Embeds get_enclosure_size (lines 36-40).  Its single statement is

  return requests.head(urljoin(base_url, download, slug, name), url,
      allow_redirects=True).headers.get(content-length, default)

Python evaluates the arguments of urljoin left to right before any
request is issued; `slug` is not a local, not a module global and not a
builtin, so evaluation raises NameError at `slug` (and would raise at
`name` next).  Even if both names were bound, urljoin accepts at most
three positional arguments, so the call would raise TypeError.  The
content-length fallback to `default` on the final line is therefore
unreachable, and no HEAD request is ever issued. -/
def get_enclosure_size (url : String) (default : Nat) : Except PyExc Nat :=
  if resolveName getEnclosureSizeLocals "slug" then
    if resolveName getEnclosureSizeLocals "name" then
      Except.error (PyExc.typeError "urljoin takes at most 3 positional arguments")
    else Except.error (PyExc.nameError "name")
  else Except.error (PyExc.nameError "slug")

/-- Local names in scope inside _enclosure when line 54 evaluates
`mimetypes.guess_type(url)[0]`. -/
def enclosureLocals : List String := ["post", "lang", "enclosure", "length", "url"]

/-- Excerpt of the standard-library extension-to-MIME-type table, as
`mimetypes.guess_type` would consult it; an extension that is not in the
table yields none (the unknown type).  Only reachable if the name
`mimetypes` resolved, which it does not (never imported). -/
def mimetypes_guess_type (url : String) : Option String :=
  if url.endsWith ".mp3" then some "audio/mpeg"
  else if url.endsWith ".ogg" then some "audio/ogg"
  else if url.endsWith ".wav" then some "audio/x-wav"
  else if url.endsWith ".mp4" then some "video/mp4"
  else if url.endsWith ".xml" then some "text/xml"
  else none

/-- Embeds the MIME-type inference on line 54:
`mime = mimetypes.guess_type(url)[0]`.  The module never imports
mimetypes, so the name `mimetypes` is unbound at this use site
(not local, not a module global, not a builtin) and the expression
raises NameError. -/
def guess_mime (url : String) : Except PyExc (Option String) :=
  if resolveName enclosureLocals "mimetypes" then
    Except.ok (mimetypes_guess_type url)
  else Except.error (PyExc.nameError "mimetypes")

/-- A datetime value: an abstract instant plus an optional timezone
(none models a naive datetime, some z a tzinfo with offset z). -/
structure PDate where
  value : Int
  tzinfo : Option Int
deriving Repr, DecidableEq

/-- A post record as this plugin consumes it (owned by the external
content source; read-only here).  metaCategory embeds
p.meta[lang][category]; metaEnclosure embeds p.meta(enclosure, lang),
with the empty string for an absent/falsy value, as in Python.  title
and permalink are Option so that a malformed post (missing required
datum) can be expressed; text bundles the rendering flags, which the
plugin forwards opaquely (lines 169-173). -/
structure Post where
  metaCategory : String → String
  metaEnclosure : String → String
  title : String → Option String
  permalink : String → Option String
  description : String → String
  text : String → String
  date : PDate
  author : String → String
  email : String → Option String

/-- Resolved enclosure data as _enclosure would return it. -/
structure EnclosureInfo where
  url : String
  length : Nat
  mime : Option String
deriving Repr, DecidableEq

/-- Embeds _enclosure (lines 48-55): a truthy enclosure reference leads
to the size lookup, then the MIME inference, and the triple is returned;
a falsy reference falls off the function (returns None).  There is no
exception handling, so the NameError from get_enclosure_size
propagates. -/
def _enclosure (p : Post) (lang : String) : Except PyExc (Option EnclosureInfo) :=
  let enclosure := p.metaEnclosure lang
  if enclosure = "" then Except.ok none
  else do
    let length ← get_enclosure_size enclosure 0
    let url := enclosure
    let mime ← guess_mime url
    Except.ok (some { url := url, length := length, mime := mime })

/-- Resolving the enclosure of each episode of a list in turn, with the
module helper _enclosure, which is the only enclosure-resolution entry
point the source defines.  There is no cache anywhere in the module, so
each episode triggers its own call; an exception from one call
propagates (no handler exists). -/
def episodeEnclosures (posts : List Post) (lang : String) :
    Except PyExc (List (Option EnclosureInfo)) :=
  match posts with
  | [] => Except.ok []
  | p :: ps => do
    let e ← _enclosure p lang
    let rest ← episodeEnclosures ps lang
    Except.ok (e :: rest)

/-- A name/email author pair as a Python dict: an absent key is none.
Truthiness of the dict is key presence. -/
structure AuthorDict where
  name : Option String
  email : Option String
deriving Repr, DecidableEq

/-- Truthiness of an author dict, as Python evaluates
`cfg[PODCAST_CHANNEL_AUTHOR] or ...`: a nonempty dict is truthy. -/
def authorDictTruthy (a : AuthorDict) : Bool :=
  a.name.isSome || a.email.isSome

/-- The merged configuration dict after set_site (lines 63-90).
Translatable settings are modelled as functions of the language, with
the empty string for an unset/falsy value (a TranslatableSetting
wrapping None yields a falsy value for every language).  The site-wide
keys that set_site never supplies a default for (BLOG_TITLE, SITE_URL,
BLOG_DESCRIPTION, BLOG_AUTHOR, BLOG_EMAIL) stay Option: none models the
key being absent from the merged dict, so that reading it raises
KeyError. -/
structure Config where
  TRANSLATIONS : String → String
  PODCAST_RSS_PATH : String
  PODCAST_POST_CATEGORY : String
  PODCAST_CHANNEL_TITLE : String → String
  PODCAST_CHANNEL_LINK : String
  PODCAST_CHANNEL_DESCRIPTION : String → String
  PODCAST_CHANNEL_AUTHOR : Option AuthorDict
  PODCAST_CHANNEL_CATEGORY : String → List String
  PODCAST_CHANNEL_LOGO : String
  BLOG_TITLE : Option (String → String)
  SITE_URL : Option String
  BLOG_DESCRIPTION : Option (String → String)
  BLOG_AUTHOR : Option (String → String)
  BLOG_EMAIL : Option String
  LOGO_URL : String
  FEED_LENGTH : Nat

/-- Raw site.config entries relevant to this plugin, before set_site
merges them over the plugin defaults; none means the key is absent. -/
structure SiteConfig where
  TRANSLATIONS : String → String
  PODCAST_RSS_PATH : Option String := none
  PODCAST_POST_CATEGORY : Option String := none
  PODCAST_CHANNEL_TITLE : Option (String → String) := none
  PODCAST_CHANNEL_LINK : Option String := none
  PODCAST_CHANNEL_DESCRIPTION : Option (String → String) := none
  PODCAST_CHANNEL_AUTHOR : Option AuthorDict := none
  PODCAST_CHANNEL_CATEGORY : Option (String → List String) := none
  PODCAST_CHANNEL_LOGO : Option String := none
  BLOG_TITLE : Option (String → String) := none
  SITE_URL : Option String := none
  BLOG_DESCRIPTION : Option (String → String) := none
  BLOG_AUTHOR : Option (String → String) := none
  BLOG_EMAIL : Option String := none
  LOGO_URL : Option String := none
  FEED_LENGTH : Option Nat := none

/-- Embeds set_site (lines 63-90): it builds the plugin defaults,
overwrites them with site.config (self.config.update(site.config)), and
wraps the three translatable podcast settings.  It contains no raise
statement and no validation of any kind, so it is a total function: no
configuration error can surface here.  (The path-handler registration
and the super call are external side effects with no bearing on the
data.) -/
def set_site (sc : SiteConfig) : Config :=
  { TRANSLATIONS := sc.TRANSLATIONS
    PODCAST_RSS_PATH := sc.PODCAST_RSS_PATH.getD "podcast.xml"
    PODCAST_POST_CATEGORY := sc.PODCAST_POST_CATEGORY.getD "podcast"
    PODCAST_CHANNEL_TITLE := sc.PODCAST_CHANNEL_TITLE.getD (fun _ => "")
    PODCAST_CHANNEL_LINK := sc.PODCAST_CHANNEL_LINK.getD ""
    PODCAST_CHANNEL_DESCRIPTION := sc.PODCAST_CHANNEL_DESCRIPTION.getD (fun _ => "")
    PODCAST_CHANNEL_AUTHOR := sc.PODCAST_CHANNEL_AUTHOR
    PODCAST_CHANNEL_CATEGORY := sc.PODCAST_CHANNEL_CATEGORY.getD (fun _ => [])
    PODCAST_CHANNEL_LOGO := sc.PODCAST_CHANNEL_LOGO.getD ""
    BLOG_TITLE := sc.BLOG_TITLE
    SITE_URL := sc.SITE_URL
    BLOG_DESCRIPTION := sc.BLOG_DESCRIPTION
    BLOG_AUTHOR := sc.BLOG_AUTHOR
    BLOG_EMAIL := sc.BLOG_EMAIL
    LOGO_URL := sc.LOGO_URL.getD ""
    FEED_LENGTH := sc.FEED_LENGTH.getD 10 }

/-- Embeds the episode selection of gen_tasks (lines 105-107):

  posts = [p for p in site.posts
      if p.meta[lang][category] == cfg[PODCAST_POST_CATEGORY]
  ][:cfg[FEED_LENGTH]]

with the category string and the maximum count passed explicitly
(cfg[PODCAST_POST_CATEGORY] and cfg[FEED_LENGTH] at the call site).
Python == on str is exact and case sensitive, as is String == here. -/
def selectEpisodes (posts : List Post) (lang category : String) (maxCount : Nat) :
    List Post :=
  (posts.filter (fun p => p.metaCategory lang == category)).take maxCount

/-- Embeds rss_path (lines 128-137):
`[_f for _f in (self.config[TRANSLATIONS][lang], self.config[PODCAST_RSS_PATH]) if _f]`
keeping exactly the truthy (nonempty) components. -/
def rss_path (cfg : Config) (lang : String) : List String :=
  ([cfg.TRANSLATIONS lang, cfg.PODCAST_RSS_PATH]).filter (fun f => f != "")

/-- The default author pair, evaluated lazily by the `or` on lines
154-155: dict(name=cfg[BLOG_AUTHOR](lang), email=cfg[BLOG_EMAIL]),
where either dict read raises KeyError if the key is absent. -/
def channelAuthorDefault (cfg : Config) (lang : String) : Except PyExc AuthorDict := do
  let ba ← getKey cfg.BLOG_AUTHOR "BLOG_AUTHOR"
  let be ← getKey cfg.BLOG_EMAIL "BLOG_EMAIL"
  Except.ok { name := some (ba lang), email := some be }

/-- Embeds the channel author resolution on lines 154-155:
`cfg[PODCAST_CHANNEL_AUTHOR] or dict(name=..., email=...)`.  The
configured value is used wholly when it is a truthy dict; otherwise
(None, or an empty dict, both falsy) the default pair is built, and only
then are BLOG_AUTHOR and BLOG_EMAIL read. -/
def channelAuthor (cfg : Config) (lang : String) : Except PyExc AuthorDict :=
  match cfg.PODCAST_CHANNEL_AUTHOR with
  | some a =>
    if authorDictTruthy a then Except.ok a else channelAuthorDefault cfg lang
  | none => channelAuthorDefault cfg lang

/-- The channel-level fields render_podcast_rss sets on the
FeedGenerator (lines 143-166), in emission order. -/
structure FeedChannel where
  id : String
  title : String
  linkAlternate : String
  linkSelf : String
  description : String
  author : AuthorDict
  language : String
  generatorTitle : String
  generatorUri : String
  category : Option String
  itunesCategory : Option (List String)
  icon : Option String
  logo : Option String
deriving Repr, DecidableEq

/-- One feed entry as the loop body (lines 168-186) populates it.  The
enclosure field records whether fe received an enclosure element; the
loop never calls any enclosure setter, so the field stays none. -/
structure FeedEntry where
  title : String
  content : String
  summary : String
  link : String
  published : PDate
  author : Option (String × Option String)
  enclosure : Option EnclosureInfo
deriving Repr, DecidableEq

/-- The assembled feed document: channel fields plus entries in loop
order. -/
structure FeedDocument where
  channel : FeedChannel
  entries : List FeedEntry
deriving Repr, DecidableEq

/-- Local names bound in the scope of render_podcast_rss (its
parameters and every name its body assigns).  The name `site` is not
among them (gen_tasks binds a local `site`, render_podcast_rss does
not), is not a module global and is not a builtin. -/
def renderScopeNames : List String :=
  ["self", "lang", "posts", "output_name", "feed_url", "cfg", "fg",
   "title", "i", "post", "content", "link", "author_name",
   "author_email", "fe"]

/-- Embeds the published-timestamp expression on lines 182-183:
`post.date if post.date.tzinfo else post.date.astimezone(site.tzinfo)`.
An aware date is used unchanged.  For a naive date Python must first
resolve the name `site`, which is unbound in render_podcast_rss, so the
expression raises NameError; the astimezone branch (which would attach
the site timezone) is unreachable. -/
def fe_published (siteTz : Int) (d : PDate) : Except PyExc PDate :=
  if d.tzinfo.isSome then Except.ok d
  else if resolveName renderScopeNames "site" then
    Except.ok { value := d.value, tzinfo := some siteTz }
  else Except.error (PyExc.nameError "site")

/-- Embeds get_author_info (lines 190-192):
`post.author(lang), post.meta[lang].get(email)` (dict .get returns None
when absent, hence the Option). -/
def get_author_info (p : Post) (lang : String) : String × Option String :=
  (p.author lang, p.email lang)

/-- Truthiness of the optional email in `if author_name or author_email`
(line 185): None and the empty string are falsy. -/
def emailTruthy (e : Option String) : Bool :=
  match e with
  | some s => s != ""
  | none => false

/-- Embeds the channel-field part of render_podcast_rss (lines
143-166), with the fallible dict reads in source order: title (146),
link (149), description (152), author (154).  Each `x or y` evaluates y
only when x is falsy, so a missing fallback key raises KeyError exactly
when the override is falsy. -/
def renderChannel (cfg : Config) (lang feed_url : String) :
    Except PyExc FeedChannel := do
  let t1 := cfg.PODCAST_CHANNEL_TITLE lang
  let title ←
    if t1 = "" then do
      let bt ← getKey cfg.BLOG_TITLE "BLOG_TITLE"
      Except.ok (bt lang)
    else Except.ok t1
  let linkAlt ←
    if cfg.PODCAST_CHANNEL_LINK = "" then getKey cfg.SITE_URL "SITE_URL"
    else Except.ok cfg.PODCAST_CHANNEL_LINK
  let d1 := cfg.PODCAST_CHANNEL_DESCRIPTION lang
  let desc ←
    if d1 = "" then do
      let bd ← getKey cfg.BLOG_DESCRIPTION "BLOG_DESCRIPTION"
      Except.ok (bd lang)
    else Except.ok d1
  let author ← channelAuthor cfg lang
  let cat := cfg.PODCAST_CHANNEL_CATEGORY lang
  let logoVal := if cfg.PODCAST_CHANNEL_LOGO = "" then cfg.LOGO_URL
                 else cfg.PODCAST_CHANNEL_LOGO
  Except.ok
    { id := feed_url
      title := title
      linkAlternate := linkAlt
      linkSelf := feed_url
      description := desc
      author := author
      language := lang
      generatorTitle := "Nikola Podcast RSS Plug-in"
      generatorUri := "https://plugins.getnikola.com/#podcast_rss"
      category := if cat.isEmpty then none else some (String.intercalate "/" cat)
      itunesCategory := if cat.isEmpty then none else some cat
      icon := if logoVal = "" then none else some logoVal
      logo := if logoVal = "" then none else some logoVal }

/-- Embeds the loop body for one post (lines 168-186), in source order:
content (169, flags forwarded opaquely), permalink (174), author info
(175), then the entry setters title (178), content, summary, link,
published (182-183), and the conditional author block (185-186).  A
malformed post fails at the access of its missing datum; the NameError
of the naive-date branch surfaces at the published setter.  No
enclosure setter is ever called, so the enclosure field is none. -/
def renderEntry (siteTz : Int) (lang : String) (p : Post) :
    Except PyExc FeedEntry := do
  let content := p.text lang
  let link ← getAttr (p.permalink lang) "permalink"
  let ai := get_author_info p lang
  let t ← getAttr (p.title lang) "title"
  let pub ← fe_published siteTz p.date
  Except.ok
    { title := t
      content := content
      summary := p.description lang
      link := link
      published := pub
      author := if (ai.1 != "") || emailTruthy ai.2 then some ai else none
      enclosure := none }

/-- The entry loop of render_podcast_rss (lines 168-186): posts are
processed in list order; the loop has no exception handler, so the
first failing post aborts the whole render. -/
def renderEntries (siteTz : Int) (lang : String) :
    List Post → Except PyExc (List FeedEntry)
  | [] => Except.ok []
  | p :: ps => do
    let fe ← renderEntry siteTz lang p
    let rest ← renderEntries siteTz lang ps
    Except.ok (fe :: rest)

/-- Embeds render_podcast_rss (lines 140-188): channel fields first, in
source order, then one entry per post in list order.  The final
rss_file write is an external file-system effect; the document it would
serialize is returned.  siteTz stands for site.tzinfo, which the source
would need for naive dates but cannot reach (see fe_published). -/
def render_podcast_rss (cfg : Config) (siteTz : Int) (lang : String)
    (posts : List Post) (feed_url : String) : Except PyExc FeedDocument := do
  let ch ← renderChannel cfg lang feed_url
  let es ← renderEntries siteTz lang posts
  Except.ok { channel := ch, entries := es }

/-! Concrete fixtures used by the theorems below. -/

/-- A well-formed post with the given category and title and an aware
publish date. -/
def mkPost (cat ttl : String) : Post :=
  { metaCategory := fun _ => cat
    metaEnclosure := fun _ => ""
    title := fun _ => some ttl
    permalink := fun _ => some ("https://example.org/posts/" ++ ttl)
    description := fun _ => "summary"
    text := fun _ => "body"
    date := { value := 1700000000, tzinfo := some 0 }
    author := fun _ => "Alice"
    email := fun _ => none }

/-- A fully populated configuration: every site-wide fallback present,
no podcast-channel overrides. -/
def cfgFull : Config :=
  { TRANSLATIONS := fun _ => ""
    PODCAST_RSS_PATH := "podcast.xml"
    PODCAST_POST_CATEGORY := "podcast"
    PODCAST_CHANNEL_TITLE := fun _ => ""
    PODCAST_CHANNEL_LINK := ""
    PODCAST_CHANNEL_DESCRIPTION := fun _ => ""
    PODCAST_CHANNEL_AUTHOR := none
    PODCAST_CHANNEL_CATEGORY := fun _ => []
    PODCAST_CHANNEL_LOGO := ""
    BLOG_TITLE := some (fun _ => "My Blog")
    SITE_URL := some "https://example.org/"
    BLOG_DESCRIPTION := some (fun _ => "A blog")
    BLOG_AUTHOR := some (fun _ => "Alice")
    BLOG_EMAIL := some "alice@example.org"
    LOGO_URL := ""
    FEED_LENGTH := 10 }

def pGood1 : Post := mkPost "podcast" "ep1"

def pGood2 : Post := mkPost "podcast" "ep2"

/-- A malformed post: its permalink is missing. -/
def pBad : Post := { mkPost "podcast" "bad" with permalink := fun _ => none }

/-- A post whose publish date is naive (no timezone). -/
def pNaive : Post :=
  { mkPost "podcast" "naive" with date := { value := 1700000000, tzinfo := none } }

/-- A post whose publish date is aware, with offset 60. -/
def pAware : Post :=
  { mkPost "podcast" "aware" with date := { value := 1700000000, tzinfo := some 60 } }

/-- A post with a non-empty enclosure reference. -/
def pEnc : Post :=
  { mkPost "podcast" "enc1" with
      metaEnclosure := fun _ => "https://archive.org/download/show/ep1.mp3" }

/-- A second post referencing the same enclosure URL as pEnc. -/
def pEnc2 : Post :=
  { mkPost "podcast" "enc2" with
      metaEnclosure := fun _ => "https://archive.org/download/show/ep1.mp3" }

/-- Nine posts in source order: seven match the podcast category, one
carries the differently-cased category Podcast and one an unrelated
category. -/
def mixedPosts : List Post :=
  [mkPost "podcast" "e1", mkPost "Podcast" "x1", mkPost "podcast" "e2",
   mkPost "podcast" "e3", mkPost "news" "x2", mkPost "podcast" "e4",
   mkPost "podcast" "e5", mkPost "podcast" "e6", mkPost "podcast" "e7"]

/-- A site configuration whose required fallback keys (BLOG_TITLE and
the rest) are all absent. -/
def scEmpty : SiteConfig := { TRANSLATIONS := fun _ => "" }

/-- An author override supplying only a name. -/
def overrideAuthor : AuthorDict := { name := some "Carol", email := none }

/-- cfgFull with an explicit channel-author override that has a name
but no email. -/
def cfgOverride : Config :=
  { cfgFull with PODCAST_CHANNEL_AUTHOR := some overrideAuthor }

/-- An arbitrary concrete feed document (used to instantiate a
negative statement). -/
def docEmpty : FeedDocument :=
  { channel :=
      { id := "", title := "", linkAlternate := "", linkSelf := ""
        description := "", author := { name := none, email := none }
        language := "", generatorTitle := "", generatorUri := ""
        category := none, itunesCategory := none, icon := none, logo := none }
    entries := [] }

/-! Helper lemmas about the Except monad. -/

@[simp]
theorem except_bind_error {E A B : Type} (e : E) (f : A → Except E B) :
    (Except.error e >>= f : Except E B) = Except.error e := rfl

@[simp]
theorem except_bind_ok {E A B : Type} (a : A) (f : A → Except E B) :
    (Except.ok a >>= f : Except E B) = f a := rfl

/-! Claim theorems. -/

/-- C1: the claim says a failing size lookup (network error, timeout,
non-success status, missing header) returns the default length 0 and
never aborts feed generation.  In the code, get_enclosure_size raises
NameError at the unbound name slug while evaluating the urljoin
arguments, on every call, before any request is issued; the fallback to
the default is unreachable and nothing catches the exception. -/
theorem get_enclosure_size_always_raises :
    ∀ (url : String) (default : Nat),
      get_enclosure_size url default = Except.error (PyExc.nameError "slug") := by
  intro url default
  rfl

/-- C4: the claim says MIME-type inference is total, yielding an
unknown type for unmapped extensions.  In the code the inference
expression mimetypes.guess_type(url)[0] raises NameError for every URL,
because the module never imports mimetypes. -/
theorem mime_inference_raises :
    ∀ url : String, guess_mime url = Except.error (PyExc.nameError "mimetypes") := by
  intro url
  rfl

/-- C3: the claim says the lookups for a URL referenced by two episodes
happen at most once, with the second episode reusing cached
EnclosureMetadata.  The module holds no cache at all, and resolving the
enclosures of two episodes that share one URL aborts at the first
lookup with NameError, producing no metadata to reuse. -/
theorem duplicate_url_no_cached_metadata :
    episodeEnclosures [pEnc, pEnc2] "en" = Except.error (PyExc.nameError "slug") := by
  rfl

/-- C2: the claim says an entry carries an enclosure element exactly
when its episode has a non-empty enclosure reference.  The rendering
loop never invokes _enclosure nor any enclosure setter, so the entry
rendered for a post with a non-empty enclosure reference has no
enclosure element; and the unused helper _enclosure itself raises
NameError on such a post. -/
theorem render_emits_no_enclosure_element :
    (render_podcast_rss cfgFull 0 "en" [pEnc] "https://example.org/podcast.xml").map
        (fun d => d.entries.map (fun e => e.enclosure)) = Except.ok [none]
    ∧ _enclosure pEnc "en" = Except.error (PyExc.nameError "slug") := by
  constructor <;> rfl

/-- C7: the claim says an aware source timestamp is used unchanged and
a naive one gets the default site timezone applied.  The aware half
holds (the entry keeps offset 60 even though the site timezone is 120),
but a naive timestamp makes the whole render raise NameError, because
render_podcast_rss references the unbound name site. -/
theorem naive_date_raises_at_published :
    render_podcast_rss cfgFull 120 "en" [pNaive] "https://example.org/podcast.xml"
      = Except.error (PyExc.nameError "site")
    ∧ (render_podcast_rss cfgFull 120 "en" [pAware] "https://example.org/podcast.xml").map
        (fun d => d.entries.map (fun e => e.published))
      = Except.ok [{ value := 1700000000, tzinfo := some 60 }] := by
  constructor <;> rfl

/-- C9 counterexample: with every required fallback key absent from
site.config and no overrides, initialization (set_site) completes
normally and produces the merged configuration, and the missing
required title only surfaces as a KeyError when render_podcast_rss
runs; no configuration error is raised at initialization time, contrary
to the claim. -/
theorem missing_blog_title_error_at_render :
    (set_site scEmpty).PODCAST_RSS_PATH = "podcast.xml"
    ∧ render_podcast_rss (set_site scEmpty) 0 "en" [] "u"
      = Except.error (PyExc.keyError "BLOG_TITLE") := by
  constructor <;> rfl

/-- C6 counterexample: one malformed post (missing permalink) among two
valid ones makes the whole render fail with the access error, instead
of producing a document with exactly the two valid entries plus a
warning; the two valid posts alone do render to a two-entry document. -/
theorem malformed_episode_aborts_render_concrete :
    render_podcast_rss cfgFull 0 "en" [pGood1, pBad, pGood2] "u"
      = Except.error (PyExc.attributeError "permalink")
    ∧ (render_podcast_rss cfgFull 0 "en" [pGood1, pGood2] "u").map
        (fun d => d.entries.length) = Except.ok 2 := by
  constructor <;> rfl

/-- C5: episode selection keeps exactly the posts whose per-language
category equals the configured category (exact, case-sensitive String
equality), in input order (the result is a sublist of the input and a
prefix of the list of all matches), truncated to the first maxCount
matches (its length is the minimum of maxCount and the match count);
on the concrete nine-post list with seven matches and maxCount 5 it
returns exactly the first five matches in source order, and with zero
matches it returns the empty list. -/
theorem select_episodes_filter_order_truncate :
    (∀ (posts : List Post) (lang cat : String) (n : Nat),
      (selectEpisodes posts lang cat n).all
          (fun p => p.metaCategory lang == cat) = true
      ∧ List.Sublist (selectEpisodes posts lang cat n) posts
      ∧ (∃ rest, selectEpisodes posts lang cat n ++ rest
            = posts.filter (fun p => p.metaCategory lang == cat))
      ∧ (selectEpisodes posts lang cat n).length
          = min n (posts.filter (fun p => p.metaCategory lang == cat)).length)
    ∧ selectEpisodes mixedPosts "en" "podcast" 5
        = [mkPost "podcast" "e1", mkPost "podcast" "e2", mkPost "podcast" "e3",
           mkPost "podcast" "e4", mkPost "podcast" "e5"]
    ∧ selectEpisodes [mkPost "Podcast" "x1", mkPost "news" "x2"] "en" "podcast" 5
        = [] := by
  refine ⟨?_, rfl, rfl⟩
  intro posts lang cat n
  refine ⟨?_, ?_, ?_, ?_⟩
  · rw [List.all_eq_true]
    intro p hp
    have hf : p ∈ posts.filter (fun p => p.metaCategory lang == cat) :=
      (List.take_sublist _ _).subset hp
    exact (List.mem_filter.mp hf).2
  · exact (List.take_sublist _ _).trans (List.filter_sublist _)
  · refine ⟨(posts.filter (fun p => p.metaCategory lang == cat)).drop n, ?_⟩
    simp only [selectEpisodes]
    exact List.take_append_drop _ _
  · exact List.length_take _ _

/-- C10: rss_path keeps, of the pair (translation prefix of the
language, configured PODCAST_RSS_PATH), exactly the non-empty (truthy)
components, in that order; its result never contains an empty path
segment, and for a language whose translation prefix is the empty
string it is just the feed file name. -/
theorem rss_path_drops_falsy_components :
    (∀ (cfg : Config) (lang : String),
      rss_path cfg lang
        = (if cfg.TRANSLATIONS lang = "" then [] else [cfg.TRANSLATIONS lang])
          ++ (if cfg.PODCAST_RSS_PATH = "" then [] else [cfg.PODCAST_RSS_PATH])
      ∧ (rss_path cfg lang).all (fun s => s != "") = true)
    ∧ rss_path cfgFull "en" = ["podcast.xml"] := by
  refine ⟨?_, rfl⟩
  intro cfg lang
  constructor
  · by_cases h1 : cfg.TRANSLATIONS lang = "" <;>
      by_cases h2 : cfg.PODCAST_RSS_PATH = "" <;>
      simp [rss_path, List.filter_cons, h1, h2]
  · rw [List.all_eq_true]
    intro s hs
    exact (List.mem_filter.mp hs).2

/-- Helper: the fallback author pair is built wholly from BLOG_AUTHOR
and BLOG_EMAIL, both of which must be present. -/
theorem channelAuthorDefault_ok (cfg : Config) (lang : String) (a : AuthorDict) :
    channelAuthorDefault cfg lang = Except.ok a →
    ∃ ba be, cfg.BLOG_AUTHOR = some ba ∧ cfg.BLOG_EMAIL = some be
      ∧ a = { name := some (ba lang), email := some be } := by
  intro h
  unfold channelAuthorDefault at h
  cases hba : cfg.BLOG_AUTHOR with
  | none => rw [hba] at h; simp [getKey] at h
  | some ba =>
    cases hbe : cfg.BLOG_EMAIL with
    | none => rw [hba, hbe] at h; simp [getKey] at h
    | some be =>
      rw [hba, hbe] at h
      simp [getKey] at h
      exact ⟨ba, be, rfl, rfl, h.symm⟩

/-- C8: channel author resolution is all-or-nothing: whenever it
succeeds, the resulting pair is either exactly the configured
PODCAST_CHANNEL_AUTHOR dict, or exactly the pair built from the site
BLOG_AUTHOR name and BLOG_EMAIL; an overridden name is never combined
with the default email nor vice versa. -/
theorem channel_author_all_or_nothing :
    ∀ (cfg : Config) (lang : String) (a : AuthorDict),
      channelAuthor cfg lang = Except.ok a →
      (∃ o, cfg.PODCAST_CHANNEL_AUTHOR = some o ∧ a = o)
      ∨ (∃ ba be, cfg.BLOG_AUTHOR = some ba ∧ cfg.BLOG_EMAIL = some be
          ∧ a = { name := some (ba lang), email := some be }) := by
  intro cfg lang a h
  unfold channelAuthor at h
  cases hpo : cfg.PODCAST_CHANNEL_AUTHOR with
  | none =>
    rw [hpo] at h
    exact Or.inr (channelAuthorDefault_ok cfg lang a h)
  | some o =>
    rw [hpo] at h
    cases ht : authorDictTruthy o with
    | true =>
      simp [ht] at h
      exact Or.inl ⟨o, rfl, h.symm⟩
    | false =>
      simp [ht] at h
      exact Or.inr (channelAuthorDefault_ok cfg lang a h)

/-- Witness for C8: with an override supplying only a name, the
resolved author is exactly that override (name Carol, no email), not a
merge with the default email. -/
theorem channel_author_all_or_nothing_witness :
    (∃ o, cfgOverride.PODCAST_CHANNEL_AUTHOR = some o ∧ overrideAuthor = o)
    ∨ (∃ ba be, cfgOverride.BLOG_AUTHOR = some ba ∧ cfgOverride.BLOG_EMAIL = some be
        ∧ overrideAuthor = { name := some (ba "en"), email := some be }) :=
  channel_author_all_or_nothing cfgOverride "en" overrideAuthor rfl

/-- Helper: rendering a malformed post (missing title or permalink)
fails at the access of the missing datum. -/
theorem renderEntry_malformed (siteTz : Int) (lang : String) (p : Post) :
    p.title lang = none ∨ p.permalink lang = none →
    ∃ e, renderEntry siteTz lang p = Except.error e := by
  intro h
  cases hperm : p.permalink lang with
  | none =>
    exact ⟨PyExc.attributeError "permalink", by simp [renderEntry, hperm, getAttr]⟩
  | some l =>
    cases htit : p.title lang with
    | none =>
      exact ⟨PyExc.attributeError "title", by simp [renderEntry, hperm, htit, getAttr]⟩
    | some t =>
      rcases h with h | h
      · rw [htit] at h; cases h
      · rw [hperm] at h; cases h

/-- Helper: the entry loop cannot succeed when some post in the list
makes renderEntry fail; the loop has no handler, so the first failure
aborts it. -/
theorem renderEntries_not_ok (siteTz : Int) (lang : String) :
    ∀ (posts : List Post),
      (∃ p, p ∈ posts ∧ ∃ e, renderEntry siteTz lang p = Except.error e) →
      ∀ es, renderEntries siteTz lang posts ≠ Except.ok es := by
  intro posts
  induction posts with
  | nil =>
    rintro ⟨p, hp, _⟩
    exact absurd hp (List.not_mem_nil p)
  | cons q qs ih =>
    rintro ⟨p, hp, e, he⟩ es hok
    rcases List.mem_cons.mp hp with rfl | hmem
    · rw [renderEntries, he] at hok
      simp at hok
    · cases hq : renderEntry siteTz lang q with
      | error e2 =>
        rw [renderEntries, hq] at hok
        simp at hok
      | ok fe =>
        cases hr : renderEntries siteTz lang qs with
        | error e2 =>
          rw [renderEntries, hq] at hok
          simp [hr] at hok
        | ok rest =>
          exact ih ⟨p, hmem, e, he⟩ rest hr

/-- C6 (amended): a malformed episode (missing required title or
permalink) among the posts makes the whole render fail: no document is
produced at all, no warning is collected, and the well-formed episodes
are not emitted. -/
theorem malformed_episode_aborts_render :
    ∀ (cfg : Config) (siteTz : Int) (lang : String) (posts : List Post)
      (feed_url : String) (doc : FeedDocument),
      (∃ p, p ∈ posts ∧ (p.title lang = none ∨ p.permalink lang = none)) →
      render_podcast_rss cfg siteTz lang posts feed_url ≠ Except.ok doc := by
  rintro cfg siteTz lang posts feed_url doc ⟨p, hp, hmal⟩ hok
  unfold render_podcast_rss at hok
  cases hch : renderChannel cfg lang feed_url with
  | error e =>
    rw [hch] at hok
    simp at hok
  | ok ch =>
    rw [hch] at hok
    simp at hok
    cases hr : renderEntries siteTz lang posts with
    | error e2 =>
      rw [hr] at hok
      simp at hok
    | ok es =>
      exact renderEntries_not_ok siteTz lang posts
        ⟨p, hp, renderEntry_malformed siteTz lang p hmal⟩ es hr

/-- Witness for C6 (amended): a single malformed post makes the render
fail to produce a document. -/
theorem malformed_episode_aborts_render_witness :
    render_podcast_rss cfgFull 0 "en" [pBad] "u" ≠ Except.ok docEmpty :=
  malformed_episode_aborts_render cfgFull 0 "en" [pBad] "u" docEmpty
    ⟨pBad, by simp, Or.inr rfl⟩

/-- C9 (amended): set_site performs no validation and always succeeds,
and a required channel field with neither an override nor a site-wide
fallback (here the title) surfaces as a KeyError during
render_podcast_rss, not at initialization. -/
theorem set_site_defers_missing_field_to_render :
    ∀ (sc : SiteConfig) (siteTz : Int) (lang : String) (posts : List Post)
      (feed_url : String),
      sc.PODCAST_CHANNEL_TITLE = none → sc.BLOG_TITLE = none →
      render_podcast_rss (set_site sc) siteTz lang posts feed_url
        = Except.error (PyExc.keyError "BLOG_TITLE") := by
  intro sc siteTz lang posts feed_url h1 h2
  simp [render_podcast_rss, renderChannel, set_site, h1, h2, getKey]

/-- Witness for C9 (amended): the concrete empty site configuration
reaches the KeyError at render time. -/
theorem set_site_defers_missing_field_to_render_witness :
    render_podcast_rss (set_site scEmpty) 0 "en" [] "u"
      = Except.error (PyExc.keyError "BLOG_TITLE") :=
  set_site_defers_missing_field_to_render scEmpty 0 "en" [] "u" rfl rfl

end PodcastRSS
